import Mathlib

/-!
Shallow embedding of the TextMate ESLint bundle driver
(`src/Support/main.py`) and proofs about its observable behaviour.

The script is an orchestration layer: it runs an external linter,
then renders the resulting issue list as a tooltip summary, as
editor gutter marks, or as an HTML report.  We embed each function
as a pure Lean function from its inputs (the environment variables
it reads and the issue list produced by the linter) to the trace of
observable effects it performs (subprocess calls, printed output)
together with an optional uncaught exception.
-/

namespace ESLint

/-- One linter finding, as parsed from the linter output.  The Python
code stores these as dicts with keys `line`, `character`, `reason`,
optionally `shortname`, and booleans `isError` / `isWarning`. -/
structure Issue where
  line : Nat
  character : Nat
  reason : String
  shortname : Option String
  isError : Bool
  isWarning : Bool
  deriving DecidableEq

/-- The error-count accumulation loop of `quiet` / `full_report`: for
each issue whose isError flag is set, increment the counter. -/
def errorCount (issues : List Issue) : Nat :=
  issues.foldl (fun n item => if item.isError then n + 1 else n) 0

/-- `warning_count` accumulation loop of `quiet` / `full_report`. -/
def warningCount (issues : List Issue) : Nat :=
  issues.foldl (fun n item => if item.isWarning then n + 1 else n) 0

/-- The string-building tail of `quiet` (main.py lines 115-122), as a
function of the two counts it has just accumulated: build `parts`,
join with `", "`, and append the hint line when the result is
non-empty (Python string truthiness). -/
def quietSummaryOfCounts (error_count warning_count : Nat) : String :=
  let parts : List String :=
    (if error_count ≠ 0 then
       [toString error_count ++ " error" ++ (if error_count > 1 then "s" else "")]
     else []) ++
    (if warning_count > 0 then
       [toString warning_count ++ " warning" ++ (if warning_count > 1 then "s" else "")]
     else [])
  let result := String.intercalate ", " parts
  if result ≠ "" then
    result ++ "\r\rPress Shift-Ctrl-V to view the full report."
  else
    result

/-- The tooltip text printed by `quiet` for a given issue list. -/
def quietSummary (issues : List Issue) : String :=
  quietSummaryOfCounts (errorCount issues) (warningCount issues)

theorem append_eq_empty_iff (a b : String) : a ++ b = "" ↔ a = "" ∧ b = "" := by
  constructor
  · intro h
    have hd := congrArg String.data h
    simp only [String.data_append] at hd
    rcases List.append_eq_nil.mp hd with ⟨h1, h2⟩
    exact ⟨String.ext (by simpa using h1), String.ext (by simpa using h2)⟩
  · rintro ⟨h1, h2⟩
    rw [h1, h2]
    rfl

theorem append_error_s (x : String) : x ++ " error" ++ "s" = x ++ " errors" := by
  rw [String.append_assoc]
  exact congrArg (fun t => x ++ t) (by decide)

theorem append_warning_s (x : String) : x ++ " warning" ++ "s" = x ++ " warnings" := by
  rw [String.append_assoc]
  exact congrArg (fun t => x ++ t) (by decide)

theorem quiet_counts_cases (e w : Nat) :
    quietSummaryOfCounts e w =
      if e = 0 ∧ w = 0 then ""
      else
        String.intercalate ", "
          ((if e = 0 then [] else [if e = 1 then "1 error" else toString e ++ " errors"]) ++
           (if w = 0 then [] else [if w = 1 then "1 warning" else toString w ++ " warnings"]))
        ++ "\r\rPress Shift-Ctrl-V to view the full report." := by
  rcases e with _ | _ | n <;> rcases w with _ | _ | m
  · decide
  · decide
  · have h1 : m + 1 + 1 ≠ 0 := by omega
    have h2 : 1 < m + 1 + 1 := by omega
    have h3 : m + 1 + 1 ≠ 1 := by omega
    simp [quietSummaryOfCounts, h1, h2, h3, String.intercalate, String.intercalate.go,
      append_warning_s, append_eq_empty_iff]
  · decide
  · decide
  · have h1 : m + 1 + 1 ≠ 0 := by omega
    have h2 : 1 < m + 1 + 1 := by omega
    have h3 : m + 1 + 1 ≠ 1 := by omega
    have hw1 : toString (1 : Nat) ++ " error" = "1 error" := by decide
    simp [quietSummaryOfCounts, h1, h2, h3, hw1, String.intercalate, String.intercalate.go,
      append_warning_s, append_eq_empty_iff]
  · have h1 : n + 1 + 1 ≠ 0 := by omega
    have h2 : 1 < n + 1 + 1 := by omega
    have h3 : n + 1 + 1 ≠ 1 := by omega
    simp [quietSummaryOfCounts, h1, h2, h3, String.intercalate, String.intercalate.go,
      append_error_s, append_eq_empty_iff]
  · have h1 : n + 1 + 1 ≠ 0 := by omega
    have h2 : 1 < n + 1 + 1 := by omega
    have h3 : n + 1 + 1 ≠ 1 := by omega
    have hw1 : toString (1 : Nat) ++ " warning" = "1 warning" := by decide
    simp [quietSummaryOfCounts, h1, h2, h3, hw1, String.intercalate, String.intercalate.go,
      append_error_s, append_eq_empty_iff]
  · have h1 : n + 1 + 1 ≠ 0 := by omega
    have h2 : 1 < n + 1 + 1 := by omega
    have h3 : n + 1 + 1 ≠ 1 := by omega
    have h4 : m + 1 + 1 ≠ 0 := by omega
    have h5 : 1 < m + 1 + 1 := by omega
    have h6 : m + 1 + 1 ≠ 1 := by omega
    simp [quietSummaryOfCounts, h1, h2, h3, h4, h5, h6, String.intercalate,
      String.intercalate.go, append_error_s, append_warning_s, append_eq_empty_iff]

/-- Claim C1: for every issue sequence, the quiet-mode tooltip string is
the comma-joined list of the pluralized error and warning counts (a
category with count 0 omitted, count 1 singular, count at least 2
plural), is empty exactly when both counts are zero, and carries the
fixed hint line exactly when non-empty; in particular one error-flagged
issue yields the scenario string. -/
theorem quiet_summary_spec (issues : List Issue) :
    (quietSummary issues =
      if errorCount issues = 0 ∧ warningCount issues = 0 then ""
      else
        String.intercalate ", "
          ((if errorCount issues = 0 then []
            else [if errorCount issues = 1 then "1 error"
                  else toString (errorCount issues) ++ " errors"]) ++
           (if warningCount issues = 0 then []
            else [if warningCount issues = 1 then "1 warning"
                  else toString (warningCount issues) ++ " warnings"]))
        ++ "\r\rPress Shift-Ctrl-V to view the full report.") ∧
    quietSummary [⟨3, 5, "Missing semicolon", none, true, false⟩] =
      "1 error\r\rPress Shift-Ctrl-V to view the full report." := by
  refine ⟨?_, by decide⟩
  have h := quiet_counts_cases (errorCount issues) (warningCount issues)
  simpa [quietSummary] using h

/-- The TextMate environment variables the script reads.  A field is
`none` when the variable is unset; reading an unset variable with
`os.environ[...]` raises a `KeyError`, while `os.environ.get` returns
a default. -/
structure Env where
  tmFilepath : Option String
  tmScope : Option String
  tmMate : Option String
  tmDirectory : Option String
  tmProjectDirectory : Option String
  tmEslint : Option String
  deriving DecidableEq

/-- Template context built by `validate` for the two error pages. -/
structure ErrContext where
  basePath : String
  timestamp : String
  errorMessage : String
  searchPath : Option String
  deriving DecidableEq

/-- Template context built by `full_report` for `report.html`.  The
Python dict keys that are only conditionally assigned are `Option`
fields (`none` = key absent). -/
structure ReportContext where
  basePath : String
  issues : List Issue
  targetFilename : String
  targetUrl : String
  hasErrorsOrWarnings : Bool
  errorCountString : Option String
  warningCountString : Option String
  deriving DecidableEq

/-- One observable effect of a run: a call into the external validator
module, a subprocess call (argv list), or something printed to the
standard output stream. -/
inductive Effect where
  | validatorFix (eslintCommand filename : String) (cwd : Option String)
  | call (argv : List String)
  | printPage (templateName : String) (ctx : ErrContext)
  | printReport (ctx : ReportContext)
  | printStr (s : String)
  deriving DecidableEq

/-- A run outcome: the effects performed, in order, paired with the
uncaught exception (if any) that aborted the run after them. -/
def RunResult := List Effect × Option String

/-- `ValidateError` raised by the validator module.  Modelled from the
spec (the validator module is not part of this repository snapshot):
it carries a message and optionally a filesystem search path. -/
structure VErr where
  message : String
  path : Option String
  deriving DecidableEq

/-- Python truthiness of an optional string: `None` and the empty
string are falsy. -/
def pyFalsy : Option String → Bool
  | none => true
  | some s => s = ""

/-- Python `str.startswith`, on character sequences. -/
def strStartsWith (s pre : String) : Bool :=
  pre.data.isPrefixOf s.data

/-- `cwd` resolution shared by `validate` and `fix`: take
`TM_DIRECTORY`, falling back to `TM_PROJECT_DIRECTORY` when the
former is unset or empty (`if not cwd:`). -/
def resolveCwd (env : Env) : Option String :=
  if pyFalsy env.tmDirectory then env.tmProjectDirectory else env.tmDirectory

/-- `validate()` (main.py lines 20-57), as a function of the outcome of
the external linter run.  On success it returns the issue list; on a
`ValidateError` it picks one of the two error templates (the
path-specific one when `err.path` is truthy), renders it with the
error context, and exits, so the caller sees only the printed page. -/
def validate (res : Except VErr (List Issue)) (basePath timestamp : String) :
    Except (String × ErrContext) (List Issue) :=
  match res with
  | .ok issues => .ok issues
  | .error err =>
    if ¬ pyFalsy err.path then
      .error ("error_eslint_path.html", ⟨basePath, timestamp, err.message, err.path⟩)
    else
      .error ("error_eslint_other.html", ⟨basePath, timestamp, err.message, none⟩)

/-- The `(msg, pos)` pair appended to `marks` for one issue inside
`update_gutter_marks` (main.py lines 136-141): the message with the
shortname appended in parentheses when present, and the
`line:character` position string. -/
def markOf (item : Issue) : String × String :=
  let msg := item.reason
  let msg := match item.shortname with
    | some s => msg ++ (" (" ++ s ++ ")")
    | none => msg
  let pos := toString item.line ++ ":" ++ toString item.character
  (msg, pos)

/-- The clear-marks subprocess call issued by `update_gutter_marks`
and by `fix`. -/
def clearCall (mate filePath : String) : Effect :=
  Effect.call [mate, "--clear-mark=warning", filePath]

/-- The set-mark subprocess call issued by `update_gutter_marks` for
one `(msg, pos)` mark. -/
def setCall (mate filePath : String) (mark : String × String) : Effect :=
  Effect.call [mate, "--set-mark=warning:[ESLint] " ++ mark.1,
               "--line=" ++ mark.2, filePath]

/-- `update_gutter_marks(issues)` (main.py lines 126-153).  It reads
`TM_MATE` and `TM_FILEPATH` with raising lookups, builds the `marks`
list, then issues one clear call followed by one set call per mark. -/
def update_gutter_marks (env : Env) (issues : List Issue) : RunResult :=
  match env.tmMate with
  | none => ([], some "KeyError: TM_MATE")
  | some mate =>
    match env.tmFilepath with
    | none => ([], some "KeyError: TM_FILEPATH")
    | some file_path =>
      let marks := issues.map markOf
      (clearCall mate file_path :: marks.map (setCall mate file_path), none)

/-- `os.path.basename`, modelled for POSIX paths: everything after the
last slash. -/
def basename (p : String) : String :=
  (p.splitOn "/").getLastD ""

/-- The `context` dict built by `full_report` (main.py lines 64-94) for
`report.html`: display metadata plus the has-issues flag and the two
conditionally-assigned pluralized count strings. -/
def reportContext (basePath : String) (tmFilepath : Option String)
    (issues : List Issue) : ReportContext :=
  let targetFilename := match tmFilepath with
    | some fp => basename fp
    | none => "(current unsaved file)"
  let targetUrl := match tmFilepath with
    | some fp => "txmt://open?url=file://" ++ fp
    | none => "txmt://open?line=1&amp;column=0"
  let error_count := errorCount issues
  let warning_count := warningCount issues
  { basePath := basePath
    issues := issues
    targetFilename := targetFilename
    targetUrl := targetUrl
    hasErrorsOrWarnings := decide (error_count + warning_count > 0)
    errorCountString :=
      if error_count = 1 then some "1 error"
      else if error_count ≠ 0 then some (toString error_count ++ " errors")
      else none
    warningCountString :=
      if warning_count = 1 then some "1 warning"
      else if warning_count ≠ 0 then some (toString warning_count ++ " warnings")
      else none }

/-- `full_report()` (main.py lines 59-97): run `validate`; on failure
only the error page is printed (the run exits inside `validate`);
on success the report template is rendered with `reportContext`. -/
def full_report (env : Env) (res : Except VErr (List Issue))
    (basePath timestamp : String) : RunResult :=
  match validate res basePath timestamp with
  | .error page => ([Effect.printPage page.1 page.2], none)
  | .ok issues => ([Effect.printReport (reportContext basePath env.tmFilepath issues)], none)

/-- `quiet()` (main.py lines 100-123): run `validate`, update the
gutter marks, then print the tooltip summary.  A `KeyError` escaping
`update_gutter_marks` aborts the run before anything is printed. -/
def quiet (env : Env) (res : Except VErr (List Issue))
    (basePath timestamp : String) : RunResult :=
  match validate res basePath timestamp with
  | .error page => ([Effect.printPage page.1 page.2], none)
  | .ok issues =>
    match update_gutter_marks env issues with
    | (effects, some e) => (effects, some e)
    | (effects, none) => (effects ++ [Effect.printStr (quietSummary issues)], none)

/-- `fix()` (main.py lines 156-176): return silently when the file is
unsaved or the scope is not plain JavaScript; otherwise run the
validator fix and clear the warning gutter marks. -/
def fix (env : Env) : RunResult :=
  match env.tmFilepath with
  | none => ([], none)
  | some filename =>
    match env.tmScope with
    | none => ([], some "KeyError: TM_SCOPE")
    | some scope =>
      if ¬ strStartsWith scope "source.js" then ([], none)
      else
        let eslint_command := env.tmEslint.getD "eslint"
        let cwd := resolveCwd env
        match env.tmMate with
        | none => ([Effect.validatorFix eslint_command filename cwd], some "KeyError: TM_MATE")
        | some mate =>
          ([Effect.validatorFix eslint_command filename cwd, clearCall mate filename], none)

/-- The three run modes of the script. -/
inductive Mode where
  | htmlReport
  | autofix
  | quietMode
  deriving DecidableEq

/-- The `__main__` dispatcher (main.py lines 179-185). -/
def dispatch (argv : List String) : Mode :=
  if argv.contains "--html" then Mode.htmlReport
  else if argv.contains "--fix" then Mode.autofix
  else Mode.quietMode

/-- Accumulating count loop as a `countP`. -/
theorem count_foldl (p : Issue → Bool) (issues : List Issue) (n : Nat) :
    issues.foldl (fun acc item => if p item then acc + 1 else acc) n =
      n + issues.countP p := by
  induction issues generalizing n with
  | nil => simp
  | cons a l ih =>
    cases h : p a
    · simp [List.foldl_cons, List.countP_cons, h, ih]
    · simp [List.foldl_cons, List.countP_cons, h, ih]
      omega

theorem errorCount_eq_countP (issues : List Issue) :
    errorCount issues = issues.countP (fun i => i.isError) := by
  simpa using count_foldl (fun i => i.isError) issues 0

theorem warningCount_eq_countP (issues : List Issue) :
    warningCount issues = issues.countP (fun i => i.isWarning) := by
  simpa using count_foldl (fun i => i.isWarning) issues 0

/-- Claim C2: with the helper and file path set, the gutter-mark
updater emits exactly one clear call first, followed by one set call
per issue in input order; for the empty issue list only the clear
call is emitted. -/
theorem update_gutter_marks_trace (env : Env) (issues : List Issue) (mate fp : String)
    (hm : env.tmMate = some mate) (hf : env.tmFilepath = some fp) :
    (update_gutter_marks env issues).1 =
      clearCall mate fp :: (issues.map markOf).map (setCall mate fp) ∧
    ((update_gutter_marks env issues).1).length = 1 + issues.length ∧
    (update_gutter_marks env []).1 = [clearCall mate fp] := by
  refine ⟨?_, ?_, ?_⟩
  · simp [update_gutter_marks, hm, hf]
  · simp [update_gutter_marks, hm, hf]
    omega
  · simp [update_gutter_marks, hm, hf]

theorem update_gutter_marks_trace_witness :
    (update_gutter_marks ⟨some "/f.js", some "source.js", some "mate", none, none, none⟩
        [⟨3, 5, "Missing semicolon", none, true, false⟩]).1 =
      clearCall "mate" "/f.js" ::
        (([⟨3, 5, "Missing semicolon", none, true, false⟩] :
            List Issue).map markOf).map (setCall "mate" "/f.js") ∧
    ((update_gutter_marks ⟨some "/f.js", some "source.js", some "mate", none, none, none⟩
        [⟨3, 5, "Missing semicolon", none, true, false⟩]).1).length = 1 + 1 ∧
    (update_gutter_marks ⟨some "/f.js", some "source.js", some "mate", none, none, none⟩
        []).1 = [clearCall "mate" "/f.js"] :=
  update_gutter_marks_trace _ _ "mate" "/f.js" rfl rfl

/-- Claim C3: the has-issues flag of the HTML report context is true
exactly when the number of error-flagged issues plus the number of
warning-flagged issues is positive. -/
theorem has_errors_or_warnings_iff (issues : List Issue) (basePath : String)
    (tmFilepath : Option String) :
    (reportContext basePath tmFilepath issues).hasErrorsOrWarnings = true ↔
      0 < issues.countP (fun i => i.isError) + issues.countP (fun i => i.isWarning) := by
  simp [reportContext, errorCount_eq_countP, warningCount_eq_countP]

/-- Claim C4 counterexample: for the empty issue sequence the rendered
context contains neither pluralized count string, so the count strings
are not always present. -/
theorem report_context_zero_count_strings_absent :
    (reportContext "" none []).errorCountString = none ∧
    (reportContext "" none []).warningCountString = none := by
  exact ⟨rfl, rfl⟩

/-- Claim C4 (amended): the HTML report formatter computes the total
error and warning counts and exposes a pluralized count string for a
category exactly when that count is nonzero; for a zero count the
string is absent from the context (and the raw counts appear in the
context only through these strings and the has-issues flag). -/
theorem report_count_strings (issues : List Issue) (basePath : String)
    (tmFilepath : Option String) :
    (reportContext basePath tmFilepath issues).errorCountString =
      (if errorCount issues = 0 then none
       else some (if errorCount issues = 1 then "1 error"
                  else toString (errorCount issues) ++ " errors")) ∧
    (reportContext basePath tmFilepath issues).warningCountString =
      (if warningCount issues = 0 then none
       else some (if warningCount issues = 1 then "1 warning"
                  else toString (warningCount issues) ++ " warnings")) := by
  constructor
  · simp only [reportContext]
    generalize errorCount issues = c
    rcases c with _ | _ | n <;> simp
  · simp only [reportContext]
    generalize warningCount issues = c
    rcases c with _ | _ | n <;> simp

/-- Claim C5: the dispatcher checks the flags in fixed priority order:
`--html` selects HTML report mode, otherwise `--fix` selects autofix
mode, otherwise quiet mode runs; when both flags are present HTML mode
wins. -/
theorem dispatch_priority (argv : List String) :
    ("--html" ∈ argv → dispatch argv = Mode.htmlReport) ∧
    ("--html" ∉ argv → "--fix" ∈ argv → dispatch argv = Mode.autofix) ∧
    ("--html" ∉ argv → "--fix" ∉ argv → dispatch argv = Mode.quietMode) ∧
    dispatch ["--html", "--fix"] = Mode.htmlReport := by
  refine ⟨?_, ?_, ?_, by decide⟩
  · intro h
    simp [dispatch, List.elem_iff, h]
  · intro h1 h2
    simp [dispatch, List.elem_iff, h1, h2]
  · intro h1 h2
    simp [dispatch, List.elem_iff, h1, h2]

theorem dispatch_priority_witness : dispatch ["--fix"] = Mode.autofix :=
  (dispatch_priority ["--fix"]).2.1 (by decide) (by decide)

/-- Claim C6: autofix mode refuses silently when the file is unsaved
or when the scope is not plain JavaScript: it performs no effect and
raises no error. -/
theorem fix_refuses_silently (env : Env) :
    (env.tmFilepath = none → fix env = ([], none)) ∧
    (∀ fn scope, env.tmFilepath = some fn → env.tmScope = some scope →
      strStartsWith scope "source.js" = false → fix env = ([], none)) := by
  constructor
  · intro h
    simp [fix, h]
  · intro fn scope h1 h2 h3
    simp [fix, h1, h2, h3]

theorem fix_refuses_silently_witness :
    fix ⟨none, some "source.js", some "mate", none, none, none⟩ = ([], none) :=
  (fix_refuses_silently _).1 rfl

/-- Claim C7: on a validation failure, HTML report mode prints exactly
one page and stops: the path-specific error template when the failure
carries a (non-empty) search path, and the other error template when
it carries none. -/
theorem full_report_failure_pages (env : Env) (err : VErr) (bp ts : String) :
    (∀ p, err.path = some p → p ≠ "" →
      full_report env (Except.error err) bp ts =
        ([Effect.printPage "error_eslint_path.html" ⟨bp, ts, err.message, err.path⟩], none)) ∧
    (err.path = none →
      full_report env (Except.error err) bp ts =
        ([Effect.printPage "error_eslint_other.html" ⟨bp, ts, err.message, none⟩], none)) := by
  constructor
  · intro p hp hne
    simp [full_report, validate, pyFalsy, hp, hne]
  · intro hp
    simp [full_report, validate, pyFalsy, hp]

theorem full_report_failure_pages_witness :
    full_report ⟨none, none, none, none, none, none⟩
        (Except.error ⟨"config not found", some "/etc/eslint"⟩) "bp" "ts" =
      ([Effect.printPage "error_eslint_path.html"
          ⟨"bp", "ts", "config not found", some "/etc/eslint"⟩], none) :=
  (full_report_failure_pages _ _ _ _).1 "/etc/eslint" rfl (by decide)

/-- Claim C8: the set-mark call for the issue at index `k` carries the
composed label (the issue message, with the rule identifier appended
in parentheses when present) and the `line:column` position string. -/
theorem gutter_set_call_content (env : Env) (issues : List Issue) (mate fp : String)
    (hm : env.tmMate = some mate) (hf : env.tmFilepath = some fp)
    (k : Nat) (hk : k < issues.length) :
    ((update_gutter_marks env issues).1)[k + 1]? =
      some (Effect.call
        [mate,
         "--set-mark=warning:[ESLint] " ++
           (match (issues.get ⟨k, hk⟩).shortname with
            | some s => (issues.get ⟨k, hk⟩).reason ++ (" (" ++ s ++ ")")
            | none => (issues.get ⟨k, hk⟩).reason),
         "--line=" ++
           (toString (issues.get ⟨k, hk⟩).line ++ ":" ++
            toString (issues.get ⟨k, hk⟩).character),
         fp]) := by
  have hk' : k < (issues.map markOf).length := by simpa using hk
  simp only [update_gutter_marks, hm, hf, List.getElem?_cons_succ, List.getElem?_map,
    List.getElem?_eq_getElem hk', List.getElem?_eq_getElem hk]
  simp [setCall, markOf, List.getElem_map, List.get_eq_getElem]

theorem gutter_set_call_content_witness :
    ((update_gutter_marks ⟨some "/f.js", some "source.js", some "mate", none, none, none⟩
        [⟨3, 5, "Missing semicolon", some "semi", true, false⟩]).1)[1]? =
      some (Effect.call
        ["mate", "--set-mark=warning:[ESLint] Missing semicolon (semi)",
         "--line=3:5", "/f.js"]) := by
  have h := gutter_set_call_content
    ⟨some "/f.js", some "source.js", some "mate", none, none, none⟩
    [⟨3, 5, "Missing semicolon", some "semi", true, false⟩]
    "mate" "/f.js" rfl rfl 0 (by decide)
  simpa using h

/-- Recognizer for editor-control subprocess calls in an effect trace. -/
def isEditorCall : Effect → Bool
  | Effect.call _ => true
  | _ => false

/-- Claim C9: on the successful autofix path, `fix` performs the
validator fix followed by exactly one editor-control call, which
clears the warning-category gutter marks on the fixed file. -/
theorem fix_success_trace (env : Env) (fn scope mate : String)
    (h1 : env.tmFilepath = some fn) (h2 : env.tmScope = some scope)
    (h3 : strStartsWith scope "source.js" = true) (h4 : env.tmMate = some mate) :
    fix env = ([Effect.validatorFix (env.tmEslint.getD "eslint") fn (resolveCwd env),
                clearCall mate fn], none) ∧
    (fix env).1.filter isEditorCall = [clearCall mate fn] := by
  have hfix : fix env =
      ([Effect.validatorFix (env.tmEslint.getD "eslint") fn (resolveCwd env),
        clearCall mate fn], none) := by
    simp [fix, h1, h2, h3, h4]
  exact ⟨hfix, by simp [hfix, isEditorCall, clearCall]⟩

theorem fix_success_trace_witness :
    fix ⟨some "/f.js", some "source.js", some "mate", none, none, none⟩ =
      ([Effect.validatorFix "eslint" "/f.js" none, clearCall "mate" "/f.js"], none) ∧
    (fix ⟨some "/f.js", some "source.js", some "mate", none, none, none⟩).1.filter
        isEditorCall = [clearCall "mate" "/f.js"] :=
  fix_success_trace _ "/f.js" "source.js" "mate" rfl rfl (by decide) rfl

/-- Claim C10: quiet mode reads the helper path and the file path with
raising lookups inside the gutter-mark updater, so with no file path
set a successful lint run aborts with an uncaught lookup error and
nothing is printed. -/
theorem quiet_unsaved_lookup_error (env : Env) (issues : List Issue) (bp ts : String)
    (hf : env.tmFilepath = none) :
    (quiet env (Except.ok issues) bp ts).1 = [] ∧
    ((quiet env (Except.ok issues) bp ts).2).isSome = true := by
  cases hm : env.tmMate <;> simp [quiet, validate, update_gutter_marks, hf, hm]

theorem quiet_unsaved_lookup_error_witness :
    (quiet ⟨none, some "source.js", some "mate", none, none, none⟩
        (Except.ok []) "bp" "ts").1 = [] ∧
    ((quiet ⟨none, some "source.js", some "mate", none, none, none⟩
        (Except.ok []) "bp" "ts").2).isSome = true :=
  quiet_unsaved_lookup_error _ [] "bp" "ts" rfl

end ESLint
